import Mathlib

/-!
Verification development for the Go Blinds SMS service (`src/server.js`).

The service is a single-file Express app bridging an automation trigger, the
Twilio SMS transport and the OpenAI completion API.  We embed its pure
orchestration logic shallowly:

* external effects (the completion API and the SMS transport) become oracle
  functions carried in an `Env` record — `completion` returns `none` when the
  external call fails (timeout, auth, quota, malformed response: all of them
  surface in JS as a thrown error or a `.trim` on a missing field, caught by
  the same `catch`), and `dispatch` returns `false` when `twilioClient.messages.create`
  throws;
* the process-wide `conversations` `Map` becomes an association list `Store`
  with JS-`Map` semantics (replace in place on existing key, append otherwise);
* `new Date()` timestamps become a `Nat` supplied per request;
* each HTTP handler becomes a function from environment, store and request
  fields to an outcome record carrying the post-state store, the list of
  SMS dispatch calls made (in order), and the HTTP response.  `console.log` /
  `console.error` calls are not modelled.
-/

/-- A transcript entry: `{ direction, message, timestamp }` as pushed by
`server.js` (directions are the strings `"inbound"` / `"outbound"`). -/
structure Message where
  direction : String
  message : String
  timestamp : Nat
deriving DecidableEq, Repr

/-- A conversation record: `{ name, context, started, messages }`. -/
structure Conversation where
  name : String
  context : String
  started : Nat
  messages : List Message
deriving DecidableEq, Repr

/-- The process-wide `conversations` map, as an association list keyed by
phone number (insertion order preserved, as in a JS `Map`). -/
abbrev Store := List (String × Conversation)

/-- `conversations.get(phone)`: first entry with the given key. -/
def Store.get : Store → String → Option Conversation
  | [], _ => none
  | (q, c) :: t, p => if q = p then some c else Store.get t p

/-- `conversations.set(phone, conv)`: replace the entry in place when the key
exists, append at the end otherwise (JS `Map.set` semantics; keys built by
`set` from the empty map are unique, so replacing the first match is exact). -/
def Store.set : Store → String → Conversation → Store
  | [], p, c => [(p, c)]
  | (q, d) :: t, p, c => if q = p then (p, c) :: t else (q, d) :: Store.set t p c

/-- Number of entries stored under a key (1 on every reachable store). -/
def Store.keyCount : Store → String → Nat
  | [], _ => 0
  | (q, _) :: t, p => (if q = p then 1 else 0) + Store.keyCount t p

/-- `sub` occurs at the head of `l` (character list version of a string
match at the start). -/
def charsLead : List Char → List Char → Bool
  | [], _ => true
  | _ :: _, [] => false
  | a :: as, b :: bs => decide (a = b) && charsLead as bs

/-- `sub` occurs somewhere in `l`. -/
def charsHave : List Char → List Char → Bool
  | sub, [] => sub.isEmpty
  | sub, b :: bs => charsLead sub (b :: bs) || charsHave sub bs

/-- JS `s.includes(sub)`. -/
def strIncludes (s sub : String) : Bool :=
  charsHave sub.data s.data

/-- JS `s.toUpperCase()` (ASCII case mapping, which is all the keyword
comparison in `server.js` relies on). -/
def jsToUpperCase (s : String) : String :=
  ⟨s.data.map Char.toUpper⟩

/-- The request `generateAIResponse` sends to
`openai.chat.completions.create` (lines 27-35 of `server.js`):
model `"gpt-3.5-turbo"`, the system prompt, the user message,
`max_tokens: 50` and `temperature: 0.7` (stored as tenths to stay in `Nat`). -/
structure CompletionRequest where
  model : String
  systemContent : String
  userContent : String
  maxTokens : Nat
  temperatureTenths : Nat
deriving DecidableEq, Repr

/-- The `context` argument of `generateAIResponse`: an object with optional
`businessContext` and `conversationHistory` fields; `none` models an absent
(or, for `businessContext`, falsy) field. -/
structure Ctx where
  businessContext : Option String := none
  conversationHistory : Option String := none
deriving DecidableEq, Repr

/-- The fixed part of the system prompt template literal (lines 20-24),
with its embedded newlines and indentation. -/
def basePrompt : String :=
  "You are a helpful customer service assistant for Go Blinds LLC, a window blind installation company. \n    Keep responses under 160 characters for SMS. \n    Be friendly, professional, and concise.\n    Always end with \"Reply STOP to opt out\" unless the message is very short.\n    Focus on appointment scheduling, confirmations, and service questions.\n    "

/-- The full system prompt: the fixed text plus
`${context.businessContext ? `Business context: ...` : ''}` — note the JS
truthiness test, under which an empty string counts as absent. -/
def systemPromptFor (c : Ctx) : String :=
  basePrompt ++
    (match c.businessContext with
      | some b => if b = "" then "" else "Business context: " ++ b
      | none => "")

/-- The completion request built by `generateAIResponse`.  Only
`customerMessage` (as the user message) and `context.businessContext` (inside
the system prompt) enter it; `context.conversationHistory` is never read. -/
def buildCompletionRequest (customerMessage : String) (c : Ctx) : CompletionRequest :=
  { model := "gpt-3.5-turbo"
    systemContent := systemPromptFor c
    userContent := customerMessage
    maxTokens := 50
    temperatureTenths := 7 }

/-- The canned fallback returned by the `catch` in `generateAIResponse`
(line 40). -/
def fallbackMessage : String :=
  "Go Blinds LLC: Thanks for your message. We'll get back to you soon. Reply STOP to opt out."

/-- `generateAIResponse(customerMessage, context)`: delegate to the completion
API and trim the result; on any failure of the external call return the fixed
fallback (the error is logged and not propagated — the function always
returns a string). -/
def generateAIResponse (customerMessage : String) (c : Ctx)
    (completionApi : CompletionRequest → Option String) : String :=
  match completionApi (buildCompletionRequest customerMessage c) with
  | some content => content.trim
  | none => fallbackMessage

/-- The external world as seen by one request: the completion API (`none`
models a thrown error anywhere inside the `try` of `generateAIResponse`) and
the SMS transport (`false` models `twilioClient.messages.create` throwing,
which `sendSMS` re-raises). -/
structure Env where
  completion : CompletionRequest → Option String
  dispatch : String → String → Bool

/-- The fixed confirmation reply (line 113). -/
def confirmMessage : String :=
  "Go Blinds LLC: Perfect! Your appointment is confirmed. We'll send a reminder the day before. Reply STOP to opt out."

/-- The fixed reschedule reply (line 122). -/
def rescheduleMessage : String :=
  "Go Blinds LLC: No problem! Please call us at [your phone] to reschedule or reply with your preferred times. Reply STOP to opt out."

/-- An HTTP response of the webhook handler: status, optional
`Content-Type`, body. -/
structure WebhookResult where
  status : Nat
  contentType : Option String
  body : String
deriving DecidableEq, Repr

/-- The success acknowledgment: `res.set('Content-Type','text/xml');`
`res.send('<Response></Response>')` (status 200). -/
def okResponse : WebhookResult :=
  { status := 200, contentType := some "text/xml", body := "<Response></Response>" }

/-- The catch-path acknowledgment: `res.status(500).send('<Response></Response>')`
(no explicit `Content-Type`). -/
def errResponse : WebhookResult :=
  { status := 500, contentType := none, body := "<Response></Response>" }

/-- Everything observable about one `POST /api/sms/webhook` request: the
store afterwards, the `sendSMS` calls made (recipient, text, in order), the
`generateAIResponse` invocation when the non-keyword path ran, and the HTTP
response. -/
structure InboundOutcome where
  store : Store
  sends : List (String × String)
  composerCall : Option (String × Ctx)
  response : WebhookResult
deriving DecidableEq, Repr

/-- The keyword short-circuit branches (lines 112-127): dispatch the fixed
text, touch nothing else; if the dispatch throws, the outer catch answers
with status 500. -/
def keywordOutcome (env : Env) (store : Store) (fromPhone msg : String) : InboundOutcome :=
  { store := store
    sends := [(fromPhone, msg)]
    composerCall := none
    response := if env.dispatch fromPhone msg then okResponse else errResponse }

/-- `conversations.get(customerPhone)` with the lazy default of lines
131-139: name `"Customer"`, context `"General inquiry"`, empty transcript. -/
def getOrCreate (store : Store) (phone : String) (now : Nat) : Conversation :=
  match store.get phone with
  | some c => c
  | none => { name := "Customer", context := "General inquiry", started := now, messages := [] }

/-- `conversation.messages.push({direction, message, timestamp})`. -/
def appendMsg (c : Conversation) (dir body : String) (now : Nat) : Conversation :=
  { c with messages := c.messages ++ [⟨dir, body, now⟩] }

/-- JS `arr.slice(-n)`: the last `n` elements (all of them when fewer). -/
def lastN (n : Nat) (l : List α) : List α :=
  l.drop (l.length - n)

/-- Lines 149-152: the last 3 transcript entries, each rendered
`` `${m.direction}: ${m.message}` ``, joined by newlines. -/
def historyString (c : Conversation) : String :=
  String.intercalate "\n" ((lastN 3 c.messages).map (fun m => m.direction ++ ": " ++ m.message))

/-- The context object passed to `generateAIResponse` on the non-keyword
path (lines 154-157): the conversation's stored context label plus the
history string. -/
def composerCtx (c : Conversation) : Ctx :=
  { businessContext := some c.context, conversationHistory := some (historyString c) }

/-- The conversation after the inbound push (lines 130-146): fetch or lazily
create, then append the inbound message. -/
def inboundConv (store : Store) (phone body : String) (now : Nat) : Conversation :=
  appendMsg (getOrCreate store phone now) "inbound" body now

/-- The AI reply generated on the non-keyword path (lines 148-157). -/
def inboundReply (env : Env) (store : Store) (phone body : String) (now : Nat) : String :=
  generateAIResponse body (composerCtx (inboundConv store phone body now)) env.completion

/-- `POST /api/sms/webhook` (lines 105-177).  Branch order is the source's:
CONFIRM keyword, then RESCHEDULE keyword, then the conversational path
(get-or-create, push inbound, generate reply from the last 3 entries plus the
stored context, dispatch, push outbound).  JS mutates the conversation object
held by the map in place; the embedding writes each push through with
`Store.set`, which is observationally the same.  A dispatch failure reaches
the outer `catch`, which leaves the store as it was at the throw point and
answers `res.status(500).send('<Response></Response>')`. -/
def handleInbound (env : Env) (store : Store) (fromPhone bodyText : String) (now : Nat) :
    InboundOutcome :=
  if strIncludes (jsToUpperCase bodyText) "CONFIRM" then
    keywordOutcome env store fromPhone confirmMessage
  else if strIncludes (jsToUpperCase bodyText) "RESCHEDULE" then
    keywordOutcome env store fromPhone rescheduleMessage
  else
    let conv1 := inboundConv store fromPhone bodyText now
    let aiResponse := inboundReply env store fromPhone bodyText now
    if env.dispatch fromPhone aiResponse then
      { store := (store.set fromPhone conv1).set fromPhone
          (appendMsg conv1 "outbound" aiResponse now)
        sends := [(fromPhone, aiResponse)]
        composerCall := some (bodyText, composerCtx conv1)
        response := okResponse }
    else
      { store := store.set fromPhone conv1
        sends := [(fromPhone, aiResponse)]
        composerCall := some (bodyText, composerCtx conv1)
        response := errResponse }

/-- The JSON body of a `POST /api/initiate-contact` response. -/
inductive InitiateBody where
  | ok (message initialMessage : String)
  | err (error : String)
deriving DecidableEq, Repr

/-- Everything observable about one `POST /api/initiate-contact` request. -/
structure InitiateOutcome where
  store : Store
  sends : List (String × String)
  status : Nat
  body : InitiateBody
deriving DecidableEq, Repr

/-- The greeting composed on initiate-contact (lines 76-79). -/
def initialMessageFor (env : Env) (customerName triggerContext : String) : String :=
  generateAIResponse
    ("Customer " ++ customerName ++ " needs help with: " ++ triggerContext ++
      ". Send a friendly greeting and ask how we can help.")
    { businessContext := some triggerContext } env.completion

/-- `POST /api/initiate-contact` (lines 61-102): store the fresh conversation
(overwriting any existing entry) **before** composing or dispatching; compose
the greeting (never throws — the composer degrades internally); dispatch it;
on success append the outbound message and answer 200, on a dispatch failure
fall into the catch and answer 500 with the store still holding the fresh
empty-transcript record. -/
def initiateContact (env : Env) (store : Store)
    (customerPhone customerName triggerContext : String) (now : Nat) : InitiateOutcome :=
  let fresh : Conversation :=
    { name := customerName, context := triggerContext, started := now, messages := [] }
  let store1 := store.set customerPhone fresh
  let initialMessage := initialMessageFor env customerName triggerContext
  if env.dispatch customerPhone initialMessage then
    { store := store1.set customerPhone (appendMsg fresh "outbound" initialMessage now)
      sends := [(customerPhone, initialMessage)]
      status := 200
      body := .ok "Contact initiated" initialMessage }
  else
    { store := store1
      sends := [(customerPhone, initialMessage)]
      status := 500
      body := .err "Failed to initiate contact" }

/-- One row of the `GET /api/conversations` listing (lines 195-201):
name, context, start time, message count, last message
(`messages[messages.length - 1]`, which is `undefined` — here `none` — on an
empty transcript).  The type has no field for the transcript itself. -/
structure ConversationSummary where
  name : String
  context : String
  started : Nat
  messageCount : Nat
  lastMessage : Option Message
deriving DecidableEq, Repr

/-- The summary computed per conversation by `GET /api/conversations`. -/
def summarize (c : Conversation) : ConversationSummary :=
  { name := c.name
    context := c.context
    started := c.started
    messageCount := c.messages.length
    lastMessage := c.messages.getLast? }

/-- `GET /api/conversations` (lines 192-204): every stored phone number paired
with its summary. -/
def listConversations (store : Store) : List (String × ConversationSummary) :=
  store.map (fun e => (e.1, summarize e.2))

/-- A concrete environment whose completion call always fails and whose
transport always delivers. -/
def envAllOk : Env :=
  { completion := fun _ => none, dispatch := fun _ _ => true }

/-- A concrete environment whose transport always throws. -/
def envSendFail : Env :=
  { completion := fun _ => none, dispatch := fun _ _ => false }

/-! ### Store lemmas -/

theorem Store.get_set_self (s : Store) (p : String) (c : Conversation) :
    (s.set p c).get p = some c := by
  induction s with
  | nil => simp [Store.set, Store.get]
  | cons e t ih =>
    obtain ⟨q, d⟩ := e
    by_cases h : q = p <;> simp [Store.set, Store.get, h, ih]

theorem Store.set_set (s : Store) (p : String) (c c' : Conversation) :
    (s.set p c).set p c' = s.set p c' := by
  induction s with
  | nil => simp [Store.set]
  | cons e t ih =>
    obtain ⟨q, d⟩ := e
    by_cases h : q = p <;> simp [Store.set, h, ih]

theorem Store.keyCount_set_of_get_none (s : Store) (p : String) (c : Conversation)
    (h : s.get p = none) : (s.set p c).keyCount p = 1 := by
  induction s with
  | nil => simp [Store.set, Store.keyCount]
  | cons e t ih =>
    obtain ⟨q, d⟩ := e
    by_cases hq : q = p
    · simp [Store.get, hq] at h
    · simp [Store.get, hq] at h
      simp [Store.set, Store.keyCount, hq, ih h]

example : strIncludes (jsToUpperCase "please confirm it") "CONFIRM" = true := by decide

example : strIncludes (jsToUpperCase "hi") "CONFIRM" = false := by decide

/-! ### Claim C1 — composer fallback -/

/-- C1 (counterexample): the claim names the fallback string
"Thanks for your message. We'll get back to you soon. Reply STOP to opt out.",
but on a failing completion call `generateAIResponse` returns a different
string (it carries a "Go Blinds LLC: " prefix). -/
theorem C1_counterexample :
    generateAIResponse "hi" {} (fun _ => none) ≠
      "Thanks for your message. We'll get back to you soon. Reply STOP to opt out." := by
  decide

/-- C1 (amended): for every input and every failure of the external
completion call, `generateAIResponse` catches the failure, never propagates
it (it is a total function into `String`), and returns exactly the fixed
fallback string "Go Blinds LLC: Thanks for your message. We'll get back to
you soon. Reply STOP to opt out.". -/
theorem C1_fallback (msg : String) (c : Ctx)
    (completionApi : CompletionRequest → Option String)
    (h : completionApi (buildCompletionRequest msg c) = none) :
    generateAIResponse msg c completionApi =
      "Go Blinds LLC: Thanks for your message. We'll get back to you soon. Reply STOP to opt out." := by
  unfold generateAIResponse
  rw [h]
  rfl

/-- C1 witness: the fallback fires on the concrete message "hi" with the
always-failing completion oracle. -/
theorem C1_fallback_witness :
    envSendFail.completion (buildCompletionRequest "hi" {}) = none ∧
      generateAIResponse "hi" {} envSendFail.completion =
        "Go Blinds LLC: Thanks for your message. We'll get back to you soon. Reply STOP to opt out." :=
  ⟨rfl, C1_fallback "hi" {} envSendFail.completion rfl⟩

/-! ### Claim C2 — webhook acknowledgment on exception -/

/-- C2 (counterexample): when the dispatch call throws inside the webhook
handler, the catch path answers with HTTP status 500 — an error status, not
a success-shaped acknowledgment. -/
theorem C2_counterexample :
    (handleInbound envSendFail [] "+15550000001" "CONFIRM" 0).response.status = 500 ∧
      (handleInbound envSendFail [] "+15550000001" "CONFIRM" 0).response.status ≠ 200 := by
  decide

/-- Whether the webhook request raises an internal exception inside the
handler's `try` block.  The reachable throw points in `server.js` lines
105-172 are exactly the three `sendSMS` calls (one per branch):
`messageBody.toUpperCase()` is total on a string body, the store operations
cannot throw, and `generateAIResponse` catches its own failures and always
returns a string.  So an exception is raised iff the dispatch of the branch's
outgoing text throws. -/
def inboundThrows (env : Env) (store : Store) (fromPhone bodyText : String) (now : Nat) :
    Bool :=
  if strIncludes (jsToUpperCase bodyText) "CONFIRM" then
    !env.dispatch fromPhone confirmMessage
  else if strIncludes (jsToUpperCase bodyText) "RESCHEDULE" then
    !env.dispatch fromPhone rescheduleMessage
  else
    !env.dispatch fromPhone (inboundReply env store fromPhone bodyText now)

/-- C2 (amended): every inbound webhook request is answered with the empty
acknowledgment body `<Response></Response>` — exceptions are caught, never
propagated to the transport — and the status is tied to the exception: a
request on which an internal exception is raised is answered with HTTP
status 500 (an error status, with no explicit content type), while a
non-throwing request is answered with the success status 200 and
content type `text/xml`. -/
theorem C2_exception_ack (env : Env) (store : Store)
    (fromPhone bodyText : String) (now : Nat) :
    (handleInbound env store fromPhone bodyText now).response.body = "<Response></Response>" ∧
      (inboundThrows env store fromPhone bodyText now = true →
        (handleInbound env store fromPhone bodyText now).response =
          { status := 500, contentType := none, body := "<Response></Response>" }) ∧
      (inboundThrows env store fromPhone bodyText now = false →
        (handleInbound env store fromPhone bodyText now).response =
          { status := 200, contentType := some "text/xml", body := "<Response></Response>" }) := by
  by_cases hc : strIncludes (jsToUpperCase bodyText) "CONFIRM" = true
  · by_cases hd : env.dispatch fromPhone confirmMessage = true
    · simp [handleInbound, keywordOutcome, inboundThrows, okResponse, errResponse, hc, hd]
    · simp [handleInbound, keywordOutcome, inboundThrows, okResponse, errResponse, hc, hd]
  · by_cases hr : strIncludes (jsToUpperCase bodyText) "RESCHEDULE" = true
    · by_cases hd : env.dispatch fromPhone rescheduleMessage = true
      · simp [handleInbound, keywordOutcome, inboundThrows, okResponse, errResponse, hc, hr, hd]
      · simp [handleInbound, keywordOutcome, inboundThrows, okResponse, errResponse, hc, hr, hd]
    · by_cases hd : env.dispatch fromPhone
        (inboundReply env store fromPhone bodyText now) = true
      · simp [handleInbound, keywordOutcome, inboundThrows, okResponse, errResponse, hc, hr, hd]
      · simp [handleInbound, keywordOutcome, inboundThrows, okResponse, errResponse, hc, hr, hd]

/-- C2 witness: a concrete non-keyword request whose reply dispatch throws is
answered with the empty body and status 500. -/
theorem C2_exception_ack_witness :
    inboundThrows envSendFail [] "+15550000012" "hello?" 0 = true ∧
      (handleInbound envSendFail [] "+15550000012" "hello?" 0).response =
        { status := 500, contentType := none, body := "<Response></Response>" } :=
  ⟨by decide,
    (C2_exception_ack envSendFail [] "+15550000012" "hello?" 0).2.1 (by decide)⟩

/-! ### Claim C3 — reschedule keyword -/

/-- C3 (counterexample): the claim quantifies over bodies containing
"reschedule" with no restriction on the rest of the body, but a body that
also contains "confirm" is short-circuited by the CONFIRM branch first: the
dispatched text is the confirmation message, not the reschedule one. -/
theorem C3_counterexample :
    (handleInbound envAllOk [] "+15550000002" "CONFIRM or RESCHEDULE?" 0).sends =
        [("+15550000002", confirmMessage)] ∧
      confirmMessage ≠ rescheduleMessage := by
  decide

/-- C3 (amended): for every inbound body that contains "reschedule" in any
case and does not contain "confirm", `handleInbound` dispatches exactly the
fixed reschedule text to the sender and leaves the store — hence every
transcript — unchanged. -/
theorem C3_reschedule (env : Env) (store : Store) (fromPhone bodyText : String) (now : Nat)
    (hr : strIncludes (jsToUpperCase bodyText) "RESCHEDULE" = true)
    (hc : strIncludes (jsToUpperCase bodyText) "CONFIRM" = false) :
    (handleInbound env store fromPhone bodyText now).sends = [(fromPhone, rescheduleMessage)] ∧
      (handleInbound env store fromPhone bodyText now).store = store := by
  simp [handleInbound, keywordOutcome, hc, hr]

/-- C3 witness: the reschedule branch fires on the concrete body
"please reschedule me" from a new number, and the store stays empty. -/
theorem C3_reschedule_witness :
    strIncludes (jsToUpperCase "please reschedule me") "RESCHEDULE" = true ∧
      strIncludes (jsToUpperCase "please reschedule me") "CONFIRM" = false ∧
      ((handleInbound envAllOk [] "+15550000003" "please reschedule me" 0).sends =
          [("+15550000003", rescheduleMessage)] ∧
        (handleInbound envAllOk [] "+15550000003" "please reschedule me" 0).store = []) :=
  ⟨by decide, by decide,
    C3_reschedule envAllOk [] "+15550000003" "please reschedule me" 0 (by decide) (by decide)⟩

/-! ### Claim C6 — confirm keyword leaves the store untouched -/

/-- C6: for every inbound body containing "confirm" in any case,
`handleInbound` dispatches the fixed confirmation text and leaves the
Conversation Store entirely unchanged: no conversation is created and no
message is appended to any transcript. -/
theorem C6_confirm (env : Env) (store : Store) (fromPhone bodyText : String) (now : Nat)
    (hc : strIncludes (jsToUpperCase bodyText) "CONFIRM" = true) :
    (handleInbound env store fromPhone bodyText now).sends = [(fromPhone, confirmMessage)] ∧
      (handleInbound env store fromPhone bodyText now).store = store := by
  simp [handleInbound, keywordOutcome, hc]

/-- C6 witness: the confirm branch fires on the concrete body "i Confirm"
from a new number, and the store stays empty (no conversation created). -/
theorem C6_confirm_witness :
    strIncludes (jsToUpperCase "i Confirm") "CONFIRM" = true ∧
      ((handleInbound envAllOk [] "+15550000004" "i Confirm" 0).sends =
          [("+15550000004", confirmMessage)] ∧
        (handleInbound envAllOk [] "+15550000004" "i Confirm" 0).store = []) :=
  ⟨by decide, C6_confirm envAllOk [] "+15550000004" "i Confirm" 0 (by decide)⟩

/-! ### Helper lemmas for the non-keyword webhook path -/

theorem getLast?_append_singleton (l : List α) (a : α) : (l ++ [a]).getLast? = some a := by
  induction l with
  | nil => rfl
  | cons b t ih =>
    cases t with
    | nil => rfl
    | cons c u => simpa using ih

theorem handleInbound_nonkeyword_store (env : Env) (store : Store)
    (fromPhone bodyText : String) (now : Nat)
    (hc : strIncludes (jsToUpperCase bodyText) "CONFIRM" = false)
    (hr : strIncludes (jsToUpperCase bodyText) "RESCHEDULE" = false) :
    (handleInbound env store fromPhone bodyText now).store =
      if env.dispatch fromPhone (inboundReply env store fromPhone bodyText now) then
        store.set fromPhone (appendMsg (inboundConv store fromPhone bodyText now)
          "outbound" (inboundReply env store fromPhone bodyText now) now)
      else
        store.set fromPhone (inboundConv store fromPhone bodyText now) := by
  simp only [handleInbound, hc, hr, Bool.false_eq_true, if_false]
  split <;> simp [Store.set_set]

theorem handleInbound_nonkeyword_composerCall (env : Env) (store : Store)
    (fromPhone bodyText : String) (now : Nat)
    (hc : strIncludes (jsToUpperCase bodyText) "CONFIRM" = false)
    (hr : strIncludes (jsToUpperCase bodyText) "RESCHEDULE" = false) :
    (handleInbound env store fromPhone bodyText now).composerCall =
      some (bodyText, composerCtx (inboundConv store fromPhone bodyText now)) := by
  simp only [handleInbound, hc, hr, Bool.false_eq_true, if_false]
  split <;> rfl

theorem getOrCreate_of_get_none (store : Store) (phone : String) (now : Nat)
    (h0 : store.get phone = none) :
    getOrCreate store phone now =
      { name := "Customer", context := "General inquiry", started := now, messages := [] } := by
  simp [getOrCreate, h0]

/-! ### Claim C4 — history construction and what reaches the completion request -/

/-- C4 (counterexample): the claim asserts that the history string reaches
the completion request, but `generateAIResponse` never reads
`conversationHistory`: two context objects that differ only in the history
produce the very same completion request. -/
theorem C4_counterexample :
    buildCompletionRequest "hello"
        { businessContext := some "General inquiry",
          conversationHistory := some "inbound: hello" } =
      buildCompletionRequest "hello"
        { businessContext := some "General inquiry", conversationHistory := none } ∧
      ({ businessContext := some "General inquiry",
          conversationHistory := some "inbound: hello" } : Ctx) ≠
        { businessContext := some "General inquiry", conversationHistory := none } := by
  constructor
  · rfl
  · decide

/-- C4 (amended): on the non-keyword inbound path, `handleInbound` builds the
history string from at most the last 3 transcript entries (the just-appended
inbound message being the last of them), each rendered `direction: message`
and joined by newlines, and invokes the composer with the conversation's
stored context label plus that history; the context label reaches the
completion request (inside the system prompt, whenever it is non-empty), but
the history string never does — the request is a function of the user message
and `businessContext` alone. -/
theorem C4_history (env : Env) (store : Store) (fromPhone bodyText : String) (now : Nat)
    (hc : strIncludes (jsToUpperCase bodyText) "CONFIRM" = false)
    (hr : strIncludes (jsToUpperCase bodyText) "RESCHEDULE" = false) :
    (handleInbound env store fromPhone bodyText now).composerCall =
        some (bodyText,
          { businessContext := some (getOrCreate store fromPhone now).context,
            conversationHistory := some (String.intercalate "\n"
              ((lastN 3 (inboundConv store fromPhone bodyText now).messages).map
                (fun m => m.direction ++ ": " ++ m.message))) }) ∧
      (lastN 3 (inboundConv store fromPhone bodyText now).messages).length ≤ 3 ∧
      (inboundConv store fromPhone bodyText now).messages.getLast? =
        some ⟨"inbound", bodyText, now⟩ ∧
      (∀ b h, b ≠ "" →
        (buildCompletionRequest bodyText
            { businessContext := some b, conversationHistory := h }).systemContent =
          basePrompt ++ ("Business context: " ++ b)) ∧
      (∀ msg c, buildCompletionRequest msg c =
        buildCompletionRequest msg { businessContext := c.businessContext }) := by
  refine ⟨?_, ?_, ?_, ?_, ?_⟩
  · rw [handleInbound_nonkeyword_composerCall env store fromPhone bodyText now hc hr]
    rfl
  · simp only [lastN, List.length_drop]
    omega
  · exact getLast?_append_singleton _ _
  · intro b h hb
    simp [buildCompletionRequest, systemPromptFor, hb]
  · intro msg c
    rfl

/-- C4 witness: concrete run from a fresh number with body "hi"; the history
is the single line `inbound: hi` and the hypotheses hold by computation. -/
theorem C4_history_witness :
    strIncludes (jsToUpperCase "hi") "CONFIRM" = false ∧
      strIncludes (jsToUpperCase "hi") "RESCHEDULE" = false ∧
      ((handleInbound envAllOk [] "+15550000005" "hi" 7).composerCall =
          some ("hi",
            { businessContext := some (getOrCreate [] "+15550000005" 7).context,
              conversationHistory := some (String.intercalate "\n"
                ((lastN 3 (inboundConv [] "+15550000005" "hi" 7).messages).map
                  (fun m => m.direction ++ ": " ++ m.message))) }) ∧
        (lastN 3 (inboundConv [] "+15550000005" "hi" 7).messages).length ≤ 3 ∧
        (inboundConv [] "+15550000005" "hi" 7).messages.getLast? =
          some ⟨"inbound", "hi", 7⟩ ∧
        (∀ b h, b ≠ "" →
          (buildCompletionRequest "hi"
              { businessContext := some b, conversationHistory := h }).systemContent =
            basePrompt ++ ("Business context: " ++ b)) ∧
        (∀ msg c, buildCompletionRequest msg c =
          buildCompletionRequest msg { businessContext := c.businessContext })) :=
  ⟨by decide, by decide,
    C4_history envAllOk [] "+15550000005" "hi" 7 (by decide) (by decide)⟩

/-! ### Claim C5 — lazy creation for unseen numbers -/

/-- C5 (counterexample): the claim quantifies over every `handleInbound` call
from an unseen number, but a keyword body short-circuits before the store is
touched: the call from the unseen number with body "CONFIRM" creates no
conversation at all, not exactly one. -/
theorem C5_counterexample :
    (handleInbound envAllOk [] "+15550000006" "CONFIRM" 0).store.get "+15550000006" =
        none ∧
      (handleInbound envAllOk [] "+15550000006" "CONFIRM" 0).store.keyCount
        "+15550000006" = 0 := by
  decide

/-- C5 (amended): for every phone number not previously present in the store
and every non-keyword body, a `handleInbound` call for that number creates
exactly one conversation for it, with name "Customer", context
"General inquiry", start time `now`, and a transcript that is empty before
the inbound append — afterwards it holds exactly the appended message(s). -/
theorem C5_create (env : Env) (store : Store) (fromPhone bodyText : String) (now : Nat)
    (h0 : store.get fromPhone = none)
    (hc : strIncludes (jsToUpperCase bodyText) "CONFIRM" = false)
    (hr : strIncludes (jsToUpperCase bodyText) "RESCHEDULE" = false) :
    ∃ c : Conversation,
      (handleInbound env store fromPhone bodyText now).store.get fromPhone = some c ∧
      c.name = "Customer" ∧ c.context = "General inquiry" ∧ c.started = now ∧
      (c.messages = [⟨"inbound", bodyText, now⟩] ∨
        c.messages = [⟨"inbound", bodyText, now⟩,
          ⟨"outbound", inboundReply env store fromPhone bodyText now, now⟩]) ∧
      (handleInbound env store fromPhone bodyText now).store.keyCount fromPhone = 1 := by
  rw [handleInbound_nonkeyword_store env store fromPhone bodyText now hc hr]
  have hg := getOrCreate_of_get_none store fromPhone now h0
  split
  · refine ⟨appendMsg (inboundConv store fromPhone bodyText now) "outbound"
      (inboundReply env store fromPhone bodyText now) now,
      Store.get_set_self _ _ _, ?_, ?_, ?_, ?_,
      Store.keyCount_set_of_get_none _ _ _ h0⟩
    · simp [appendMsg, inboundConv, hg]
    · simp [appendMsg, inboundConv, hg]
    · simp [appendMsg, inboundConv, hg]
    · right
      simp [appendMsg, inboundConv, hg]
  · refine ⟨inboundConv store fromPhone bodyText now,
      Store.get_set_self _ _ _, ?_, ?_, ?_, ?_,
      Store.keyCount_set_of_get_none _ _ _ h0⟩
    · simp [appendMsg, inboundConv, hg]
    · simp [appendMsg, inboundConv, hg]
    · simp [appendMsg, inboundConv, hg]
    · left
      simp [appendMsg, inboundConv, hg]

/-- C5 witness: concrete run from a fresh number with body "hello there". -/
theorem C5_create_witness :
    Store.get [] "+15550000007" = none ∧
      strIncludes (jsToUpperCase "hello there") "CONFIRM" = false ∧
      strIncludes (jsToUpperCase "hello there") "RESCHEDULE" = false ∧
      (∃ c : Conversation,
        (handleInbound envAllOk [] "+15550000007" "hello there" 3).store.get
            "+15550000007" = some c ∧
        c.name = "Customer" ∧ c.context = "General inquiry" ∧ c.started = 3 ∧
        (c.messages = [⟨"inbound", "hello there", 3⟩] ∨
          c.messages = [⟨"inbound", "hello there", 3⟩,
            ⟨"outbound", inboundReply envAllOk [] "+15550000007" "hello there" 3, 3⟩]) ∧
        (handleInbound envAllOk [] "+15550000007" "hello there" 3).store.keyCount
          "+15550000007" = 1) :=
  ⟨rfl, by decide, by decide,
    C5_create envAllOk [] "+15550000007" "hello there" 3 rfl (by decide) (by decide)⟩

/-! ### Claim C7 — two sequential non-keyword rounds -/

/-- C7: starting from a store with no entry for a number, two sequential
successful `handleInbound` calls from that number with the non-keyword bodies
"hi" then "what are your hours" leave exactly one conversation for it, whose
transcript has exactly 4 messages in order inbound, outbound, inbound,
outbound. -/
theorem C7_two_rounds (env : Env) (store : Store) (phone : String) (now1 now2 : Nat)
    (hd : ∀ t m, env.dispatch t m = true)
    (h0 : store.get phone = none) :
    ∃ c : Conversation,
      (handleInbound env (handleInbound env store phone "hi" now1).store phone
          "what are your hours" now2).store.get phone = some c ∧
      c.messages.map Message.direction = ["inbound", "outbound", "inbound", "outbound"] ∧
      (handleInbound env (handleInbound env store phone "hi" now1).store phone
          "what are your hours" now2).store.keyCount phone = 1 := by
  have hc1 : strIncludes (jsToUpperCase "hi") "CONFIRM" = false := by decide
  have hr1 : strIncludes (jsToUpperCase "hi") "RESCHEDULE" = false := by decide
  have hc2 : strIncludes (jsToUpperCase "what are your hours") "CONFIRM" = false := by decide
  have hr2 : strIncludes (jsToUpperCase "what are your hours") "RESCHEDULE" = false := by decide
  have hstore1 : (handleInbound env store phone "hi" now1).store =
      store.set phone (appendMsg (inboundConv store phone "hi" now1) "outbound"
        (inboundReply env store phone "hi" now1) now1) := by
    rw [handleInbound_nonkeyword_store env store phone "hi" now1 hc1 hr1,
      if_pos (hd phone (inboundReply env store phone "hi" now1))]
  set b1 := appendMsg (inboundConv store phone "hi" now1) "outbound"
    (inboundReply env store phone "hi" now1) now1 with hb1
  rw [hstore1]
  have hget1 : (store.set phone b1).get phone = some b1 := Store.get_set_self _ _ _
  have hstore2 : (handleInbound env (store.set phone b1) phone "what are your hours"
        now2).store =
      (store.set phone b1).set phone
        (appendMsg (inboundConv (store.set phone b1) phone "what are your hours" now2)
          "outbound" (inboundReply env (store.set phone b1) phone "what are your hours" now2)
          now2) := by
    rw [handleInbound_nonkeyword_store env (store.set phone b1) phone "what are your hours"
        now2 hc2 hr2,
      if_pos (hd phone (inboundReply env (store.set phone b1) phone "what are your hours" now2))]
  rw [hstore2, Store.set_set]
  refine ⟨_, Store.get_set_self _ _ _, ?_, Store.keyCount_set_of_get_none _ _ _ h0⟩
  have hg1 : getOrCreate store phone now1 =
      { name := "Customer", context := "General inquiry", started := now1, messages := [] } :=
    getOrCreate_of_get_none store phone now1 h0
  have hg2 : getOrCreate (store.set phone b1) phone now2 = b1 := by
    simp [getOrCreate, hget1]
  simp only [inboundConv]
  rw [hg2]
  simp [hb1, appendMsg, inboundConv, hg1]

/-- C7 witness: the concrete two-round run with the always-delivering
environment from the fresh number. -/
theorem C7_two_rounds_witness :
    (∀ t m, envAllOk.dispatch t m = true) ∧
      Store.get [] "+15550000008" = none ∧
      ∃ c : Conversation,
        (handleInbound envAllOk (handleInbound envAllOk [] "+15550000008" "hi" 0).store
            "+15550000008" "what are your hours" 1).store.get "+15550000008" = some c ∧
        c.messages.map Message.direction = ["inbound", "outbound", "inbound", "outbound"] ∧
        (handleInbound envAllOk (handleInbound envAllOk [] "+15550000008" "hi" 0).store
          "+15550000008" "what are your hours" 1).store.keyCount "+15550000008" = 1 :=
  ⟨fun _ _ => rfl, rfl,
    C7_two_rounds envAllOk [] "+15550000008" 0 1 (fun _ _ => rfl) rfl⟩

/-! ### Claim C8 — listing exposes only summaries -/

/-- C8: for every store state and conversations of any transcript length,
`listConversations` returns per phone number only the summary fields (name,
context, start time, message count, last message) and never the full
transcript: two stores whose conversations agree on those fields alone —
whatever their transcripts — produce identical listings. -/
theorem C8_listing (store₁ store₂ : Store)
    (h : store₁.map (fun e => (e.1, e.2.name, e.2.context, e.2.started,
          e.2.messages.length, e.2.messages.getLast?)) =
        store₂.map (fun e => (e.1, e.2.name, e.2.context, e.2.started,
          e.2.messages.length, e.2.messages.getLast?))) :
    listConversations store₁ = listConversations store₂ ∧
      ∀ s : Store, listConversations s = s.map (fun e => (e.1, summarize e.2)) := by
  have key : ∀ s : Store, listConversations s =
      (s.map (fun e => (e.1, e.2.name, e.2.context, e.2.started,
        e.2.messages.length, e.2.messages.getLast?))).map
        (fun q => (q.1, ⟨q.2.1, q.2.2.1, q.2.2.2.1, q.2.2.2.2.1, q.2.2.2.2.2⟩)) := by
    intro s
    rw [List.map_map]
    rfl
  exact ⟨by rw [key store₁, key store₂, h], fun _ => rfl⟩

/-- C8 witness: two concrete stores whose conversations differ in their
transcripts (different first message) but share name, context, start time,
message count and last message; their listings coincide. -/
theorem C8_listing_witness :
    ([("+15550000010", ⟨"Ann", "quote", 2,
          [⟨"inbound", "x", 2⟩, ⟨"outbound", "z", 3⟩]⟩)] : Store).map
          (fun e => (e.1, e.2.name, e.2.context, e.2.started,
            e.2.messages.length, e.2.messages.getLast?)) =
        ([("+15550000010", ⟨"Ann", "quote", 2,
          [⟨"inbound", "y", 2⟩, ⟨"outbound", "z", 3⟩]⟩)] : Store).map
          (fun e => (e.1, e.2.name, e.2.context, e.2.started,
            e.2.messages.length, e.2.messages.getLast?)) ∧
      (listConversations [("+15550000010", ⟨"Ann", "quote", 2,
            [⟨"inbound", "x", 2⟩, ⟨"outbound", "z", 3⟩]⟩)] =
          listConversations [("+15550000010", ⟨"Ann", "quote", 2,
            [⟨"inbound", "y", 2⟩, ⟨"outbound", "z", 3⟩]⟩)] ∧
        ∀ s : Store, listConversations s = s.map (fun e => (e.1, summarize e.2))) :=
  ⟨by rfl,
    C8_listing
      [("+15550000010", ⟨"Ann", "quote", 2, [⟨"inbound", "x", 2⟩, ⟨"outbound", "z", 3⟩]⟩)]
      [("+15550000010", ⟨"Ann", "quote", 2, [⟨"inbound", "y", 2⟩, ⟨"outbound", "z", 3⟩]⟩)]
      (by rfl)⟩

/-! ### Claim C9 — initiate-contact writes before it dispatches -/

/-- C9: `initiateContact` writes the new conversation (name and context from
the request, empty transcript) into the store before composing or
dispatching; hence when the dispatch fails and the 500 error is returned,
the store still holds that new empty-transcript conversation — any
previously stored conversation for the number has been overwritten even on
failure (the operation is not atomic on error).  Composition itself never
throws: `generateAIResponse` is total. -/
theorem C9_overwrite (env : Env) (store : Store)
    (customerPhone customerName triggerContext : String) (now : Nat)
    (hfail : env.dispatch customerPhone
      (initialMessageFor env customerName triggerContext) = false) :
    (initiateContact env store customerPhone customerName triggerContext now).status = 500 ∧
      (initiateContact env store customerPhone customerName triggerContext now).body =
        .err "Failed to initiate contact" ∧
      (initiateContact env store customerPhone customerName triggerContext now).store.get
          customerPhone =
        some { name := customerName, context := triggerContext, started := now,
               messages := [] } := by
  simp only [initiateContact, hfail, Bool.false_eq_true, if_false]
  exact ⟨trivial, trivial, Store.get_set_self _ _ _⟩

/-- C9 witness: a store already holding a conversation for the number, an
environment whose transport always throws; the 500 is returned and the old
record has been replaced by the fresh empty-transcript one. -/
theorem C9_overwrite_witness :
    envSendFail.dispatch "+15550000009"
        (initialMessageFor envSendFail "Jane" "blind install quote") = false ∧
      ((initiateContact envSendFail
          [("+15550000009", ⟨"Old", "old context", 1, [⟨"outbound", "hi", 1⟩]⟩)]
          "+15550000009" "Jane" "blind install quote" 5).status = 500 ∧
        (initiateContact envSendFail
          [("+15550000009", ⟨"Old", "old context", 1, [⟨"outbound", "hi", 1⟩]⟩)]
          "+15550000009" "Jane" "blind install quote" 5).body =
          .err "Failed to initiate contact" ∧
        (initiateContact envSendFail
          [("+15550000009", ⟨"Old", "old context", 1, [⟨"outbound", "hi", 1⟩]⟩)]
          "+15550000009" "Jane" "blind install quote" 5).store.get "+15550000009" =
          some { name := "Jane", context := "blind install quote", started := 5,
                 messages := [] }) :=
  ⟨rfl,
    C9_overwrite envSendFail
      [("+15550000009", ⟨"Old", "old context", 1, [⟨"outbound", "hi", 1⟩]⟩)]
      "+15550000009" "Jane" "blind install quote" 5 rfl⟩

/-! ### Claim C10 — transcript growth on the dispatch-failure path -/

/-- C10: on the non-keyword inbound path the inbound message is appended
before the reply is generated and dispatched; if the dispatch of the reply
fails, the stored transcript keeps the appended inbound message and gains no
outbound one — it grows by exactly 1 on that error path, versus exactly 2 on
success. -/
theorem C10_growth (env : Env) (store : Store) (fromPhone bodyText : String) (now : Nat)
    (hc : strIncludes (jsToUpperCase bodyText) "CONFIRM" = false)
    (hr : strIncludes (jsToUpperCase bodyText) "RESCHEDULE" = false) :
    (env.dispatch fromPhone (inboundReply env store fromPhone bodyText now) = false →
      (handleInbound env store fromPhone bodyText now).store.get fromPhone =
          some (appendMsg (getOrCreate store fromPhone now) "inbound" bodyText now) ∧
        (appendMsg (getOrCreate store fromPhone now) "inbound" bodyText now).messages.length =
          (getOrCreate store fromPhone now).messages.length + 1) ∧
    (env.dispatch fromPhone (inboundReply env store fromPhone bodyText now) = true →
      (handleInbound env store fromPhone bodyText now).store.get fromPhone =
          some (appendMsg (appendMsg (getOrCreate store fromPhone now) "inbound" bodyText now)
            "outbound" (inboundReply env store fromPhone bodyText now) now) ∧
        (appendMsg (appendMsg (getOrCreate store fromPhone now) "inbound" bodyText now)
            "outbound" (inboundReply env store fromPhone bodyText now) now).messages.length =
          (getOrCreate store fromPhone now).messages.length + 2) := by
  rw [handleInbound_nonkeyword_store env store fromPhone bodyText now hc hr]
  constructor
  · intro hf
    simp only [hf, Bool.false_eq_true, if_false]
    exact ⟨Store.get_set_self _ _ _, by simp [appendMsg, inboundConv]⟩
  · intro ht
    simp only [ht, if_true]
    refine ⟨?_, by simp [appendMsg, inboundConv]⟩
    have := Store.get_set_self store fromPhone
      (appendMsg (inboundConv store fromPhone bodyText now) "outbound"
        (inboundReply env store fromPhone bodyText now) now)
    simpa [inboundConv] using this

/-- C10 witness: concrete run with the always-throwing transport from a
store already holding a one-message transcript for the number: the stored
transcript grows from 1 to 2 (the inbound only). -/
theorem C10_growth_witness :
    strIncludes (jsToUpperCase "ok thanks") "CONFIRM" = false ∧
      strIncludes (jsToUpperCase "ok thanks") "RESCHEDULE" = false ∧
      ((envSendFail.dispatch "+15550000011"
          (inboundReply envSendFail
            [("+15550000011", ⟨"Bo", "quote", 0, [⟨"outbound", "hello", 0⟩]⟩)]
            "+15550000011" "ok thanks" 4) = false →
        (handleInbound envSendFail
            [("+15550000011", ⟨"Bo", "quote", 0, [⟨"outbound", "hello", 0⟩]⟩)]
            "+15550000011" "ok thanks" 4).store.get "+15550000011" =
            some (appendMsg (getOrCreate
              [("+15550000011", ⟨"Bo", "quote", 0, [⟨"outbound", "hello", 0⟩]⟩)]
              "+15550000011" 4) "inbound" "ok thanks" 4) ∧
          (appendMsg (getOrCreate
              [("+15550000011", ⟨"Bo", "quote", 0, [⟨"outbound", "hello", 0⟩]⟩)]
              "+15550000011" 4) "inbound" "ok thanks" 4).messages.length =
            (getOrCreate [("+15550000011", ⟨"Bo", "quote", 0, [⟨"outbound", "hello", 0⟩]⟩)]
              "+15550000011" 4).messages.length + 1) ∧
      (envSendFail.dispatch "+15550000011"
          (inboundReply envSendFail
            [("+15550000011", ⟨"Bo", "quote", 0, [⟨"outbound", "hello", 0⟩]⟩)]
            "+15550000011" "ok thanks" 4) = true →
        (handleInbound envSendFail
            [("+15550000011", ⟨"Bo", "quote", 0, [⟨"outbound", "hello", 0⟩]⟩)]
            "+15550000011" "ok thanks" 4).store.get "+15550000011" =
            some (appendMsg (appendMsg (getOrCreate
              [("+15550000011", ⟨"Bo", "quote", 0, [⟨"outbound", "hello", 0⟩]⟩)]
              "+15550000011" 4) "inbound" "ok thanks" 4) "outbound"
              (inboundReply envSendFail
                [("+15550000011", ⟨"Bo", "quote", 0, [⟨"outbound", "hello", 0⟩]⟩)]
                "+15550000011" "ok thanks" 4) 4) ∧
          (appendMsg (appendMsg (getOrCreate
              [("+15550000011", ⟨"Bo", "quote", 0, [⟨"outbound", "hello", 0⟩]⟩)]
              "+15550000011" 4) "inbound" "ok thanks" 4) "outbound"
              (inboundReply envSendFail
                [("+15550000011", ⟨"Bo", "quote", 0, [⟨"outbound", "hello", 0⟩]⟩)]
                "+15550000011" "ok thanks" 4) 4).messages.length =
            (getOrCreate [("+15550000011", ⟨"Bo", "quote", 0, [⟨"outbound", "hello", 0⟩]⟩)]
              "+15550000011" 4).messages.length + 2)) :=
  ⟨by decide, by decide,
    C10_growth envSendFail
      [("+15550000011", ⟨"Bo", "quote", 0, [⟨"outbound", "hello", 0⟩]⟩)]
      "+15550000011" "ok thanks" 4 (by decide) (by decide)⟩
